import Mathlib

/-!
Verification of the `DMatrix` wrapper (src/dmatrix.rs) of rust-xgboost.

The wrapper is a thin resource-ownership layer over the foreign XGBoost C
API.  We embed it shallowly: the foreign engine is an abstract record of
response functions over an engine-state type `σ`, and every wrapper method
is a Lean function that returns its outcome, the updated engine state and
the ordered list of engine calls it performed.  `f32`/`u32` payloads are
carried opaquely as their bit patterns (`Nat`); the wrapper never computes
on them, it only marshals them, so round-trip properties are list
equalities on the bit patterns.  Rust panics (assertion failures, `unwrap`
on `Err`/`None`) are a distinct outcome constructor, separate from the
recoverable `XGBError`.
-/

namespace Xgb

/-- A byte string as passed over the FFI boundary (a path or a C string). -/
abbrev Bytes := List Nat

/-- The calls a wrapper method can make into the foreign engine, with their
arguments, in the order the Rust source issues them. -/
inductive EngineCall where
  | createFromFile (fname : Bytes) (silent : Int)
  | createFromCSREx (indptr : List Nat) (indices : List Nat) (data : List Nat)
      (nindptr : Nat) (nelem : Nat) (numCol : Nat)
  | createFromCSCEx (colptr : List Nat) (indices : List Nat) (data : List Nat)
      (nindptr : Nat) (nelem : Nat) (numRow : Nat)
  | createFromMat (data : List Nat) (nrow : Nat) (ncol : Nat) (missing : Nat)
  | numRow (handle : Nat)
  | numCol (handle : Nat)
  | saveBinary (handle : Nat) (fname : Bytes) (silent : Int)
  | getFloatInfo (handle : Nat) (field : String)
  | setFloatInfo (handle : Nat) (field : String) (array : List Nat)
  | getUIntInfo (handle : Nat) (field : String)
  | setUIntInfo (handle : Nat) (field : String) (array : List Nat)
  | setGroup (handle : Nat) (group : List Nat)
  | free (handle : Nat)
deriving DecidableEq

/-- The foreign engine as the wrapper consumes it (spec section 6): each
primitive takes the engine state and returns a status (0 = success), its
out-parameters, and the next state.  Handles are `Nat`; 0 is the null
pointer `ptr::null_mut()`. -/
structure Engine (σ : Type) where
  getLastError : σ → String
  createFromFile : σ → Bytes → Int → Int × Nat × σ
  createFromCSREx : σ → List Nat → List Nat → List Nat → Nat → Nat → Nat → Int × Nat × σ
  createFromCSCEx : σ → List Nat → List Nat → List Nat → Nat → Nat → Nat → Int × Nat × σ
  createFromMat : σ → List Nat → Nat → Nat → Nat → Int × Nat × σ
  numRow : σ → Nat → Int × Nat × σ
  numCol : σ → Nat → Int × Nat × σ
  saveBinary : σ → Nat → Bytes → Int → Int × σ
  getFloatInfo : σ → Nat → String → Int × List Nat × σ
  setFloatInfo : σ → Nat → String → List Nat → Int × σ
  getUIntInfo : σ → Nat → String → Int × List Nat × σ
  setUIntInfo : σ → Nat → String → List Nat → Int × σ
  setGroup : σ → Nat → List Nat → Int × σ
  free : σ → Nat → Int × σ

/-- Modelled from the spec: the repository's `XGBError` (its module is not
under src/), "Single error kind, EngineError, carrying a human-readable
message sourced from the foreign engine's last-error mechanism". -/
structure XGBError where
  desc : String
deriving DecidableEq

/-- The result type the wrapper's fallible operations return. -/
abbrev XGBResult (α : Type) := Except XGBError α

/-- Modelled from the spec: the repository's `xgb_call!` /
`XGBError::check_return_value` (its module is not under src/), "raised
whenever any engine call returns a non-zero/failure status": status 0 is
success, anything else becomes an `XGBError` carrying the engine's
last-error message. -/
def check_return_value (ret : Int) (lastError : String) : XGBResult Unit :=
  if ret = 0 then Except.ok () else Except.error ⟨lastError⟩

/-- What a wrapper method can do, as seen by its caller: return normally,
return an `XGBError` through `XGBResult`, or panic (Rust `assert_eq!` /
`unwrap`), which is a programmer-error condition, not a recoverable one. -/
inductive Outcome (α : Type) where
  | ok : α → Outcome α
  | err : XGBError → Outcome α
  | panic : String → Outcome α
deriving DecidableEq

/-- Panic message of `Result::unwrap` on `Err` (e.g. `CString::new` on a
byte string with an interior NUL, `assert_eq!` failure is separate). -/
def nulErrorPanic : String := "called Result::unwrap on an Err value: NulError"

/-- Panic message of `assert_eq!(indices.len(), data.len())`. -/
def assertEqPanic : String := "assertion failed: (left == right)"

/-- Panic message of `.unwrap()` on an `Err` carrying an `XGBError`. -/
def unwrapErrPanic (e : XGBError) : String :=
  "called Result::unwrap on an Err value: " ++ e.desc

/-- `ffi::CString::new` on a byte string: fails (`NulError`) exactly when
the bytes contain an interior NUL. -/
def cstring_new (bytes : Bytes) : Option Bytes :=
  if 0 ∈ bytes then none else some bytes

/-- `ffi::CString::new` on a Rust `&str` (the auxiliary-field keys). -/
def cstring_new_str (s : String) : Option String :=
  if Char.ofNat 0 ∈ s.toList then none else some s

/-- The wrapper struct: the owned foreign handle and the row/column counts
cached at construction time (fields of `struct DMatrix`). -/
structure DMatrix where
  handle : Nat
  num_rows : Nat
  num_cols : Nat
deriving DecidableEq

def KEY_ROOT_INDEX : String := "root_index"
def KEY_LABEL : String := "label"
def KEY_WEIGHT : String := "weight"
def KEY_BASE_MARGIN : String := "base_margin"

/-- `DMatrix::new(handle)`: the shared post-construction step — query
`XGDMatrixNumRow` and `XGDMatrixNumCol` (each through `xgb_call!` and `?`)
and cache the counts.  Note that an early `?` return leaves the raw handle
untouched: no `XGDMatrixFree` call appears on any path of this function. -/
def DMatrix.new {σ : Type} (E : Engine σ) (s : σ) (handle : Nat) :
    Outcome DMatrix × σ × List EngineCall :=
  let r := E.numRow s handle
  match check_return_value r.1 (E.getLastError r.2.2) with
  | .error e => (.err e, r.2.2, [.numRow handle])
  | .ok _ =>
    let c := E.numCol r.2.2 handle
    match check_return_value c.1 (E.getLastError c.2.2) with
    | .error e => (.err e, c.2.2, [.numRow handle, .numCol handle])
    | .ok _ => (.ok ⟨handle, r.2.1, c.2.1⟩, c.2.2, [.numRow handle, .numCol handle])

/-- `DMatrix::load(path)`: `CString::new(bytes).unwrap()` (panics on an
interior NUL), then `XGDMatrixCreateFromFile` with `silent = true as i32 = 1`,
then `DMatrix::new` on the returned handle. -/
def DMatrix.load {σ : Type} (E : Engine σ) (s : σ) (path : Bytes) :
    Outcome DMatrix × σ × List EngineCall :=
  match cstring_new path with
  | none => (.panic nulErrorPanic, s, [])
  | some fname =>
    let r := E.createFromFile s fname 1
    match check_return_value r.1 (E.getLastError r.2.2) with
    | .error e => (.err e, r.2.2, [.createFromFile fname 1])
    | .ok _ =>
      let n := DMatrix.new E r.2.2 r.2.1
      (n.1, n.2.1, .createFromFile fname 1 :: n.2.2)

/-- `DMatrix::from_csr`: `assert_eq!(indices.len(), data.len())` first
(a panic, before any engine call), then `num_cols.unwrap_or(0)` and
`XGDMatrixCreateFromCSREx`, then `DMatrix::new`. -/
def DMatrix.from_csr {σ : Type} (E : Engine σ) (s : σ) (indptr : List Nat)
    (indices : List Nat) (data : List Nat) (num_cols : Option Nat) :
    Outcome DMatrix × σ × List EngineCall :=
  if indices.length = data.length then
    let nc := num_cols.getD 0
    let r := E.createFromCSREx s indptr indices data indptr.length data.length nc
    match check_return_value r.1 (E.getLastError r.2.2) with
    | .error e =>
      (.err e, r.2.2, [.createFromCSREx indptr indices data indptr.length data.length nc])
    | .ok _ =>
      let n := DMatrix.new E r.2.2 r.2.1
      (n.1, n.2.1, .createFromCSREx indptr indices data indptr.length data.length nc :: n.2.2)
  else (.panic assertEqPanic, s, [])

/-- `DMatrix::from_csc`: symmetric to `from_csr` with `num_rows.unwrap_or(0)`
and `XGDMatrixCreateFromCSCEx`. -/
def DMatrix.from_csc {σ : Type} (E : Engine σ) (s : σ) (indptr : List Nat)
    (indices : List Nat) (data : List Nat) (num_rows : Option Nat) :
    Outcome DMatrix × σ × List EngineCall :=
  if indices.length = data.length then
    let nr := num_rows.getD 0
    let r := E.createFromCSCEx s indptr indices data indptr.length data.length nr
    match check_return_value r.1 (E.getLastError r.2.2) with
    | .error e =>
      (.err e, r.2.2, [.createFromCSCEx indptr indices data indptr.length data.length nr])
    | .ok _ =>
      let n := DMatrix.new E r.2.2 r.2.1
      (n.1, n.2.1, .createFromCSCEx indptr indices data indptr.length data.length nr :: n.2.2)
  else (.panic assertEqPanic, s, [])

/-- `DMatrix::from_dense`: `XGDMatrixCreateFromMat` with the given counts
and missing-value sentinel, then `DMatrix::new`.  No length check of any
kind appears in the source. -/
def DMatrix.from_dense {σ : Type} (E : Engine σ) (s : σ) (data : List Nat)
    (num_rows : Nat) (num_cols : Nat) (missing : Nat) :
    Outcome DMatrix × σ × List EngineCall :=
  let r := E.createFromMat s data num_rows num_cols missing
  match check_return_value r.1 (E.getLastError r.2.2) with
  | .error e => (.err e, r.2.2, [.createFromMat data num_rows num_cols missing])
  | .ok _ =>
    let n := DMatrix.new E r.2.2 r.2.1
    (n.1, n.2.1, .createFromMat data num_rows num_cols missing :: n.2.2)

/-- `DMatrix::save(&self, path, silent)`: `CString::new(bytes).unwrap()`,
then `XGDMatrixSaveBinary`.  Takes `&self`: it cannot mutate the struct. -/
def DMatrix.save {σ : Type} (E : Engine σ) (s : σ) (m : DMatrix) (path : Bytes)
    (silent : Bool) : Outcome Unit × σ × List EngineCall :=
  match cstring_new path with
  | none => (.panic nulErrorPanic, s, [])
  | some fname =>
    let r := E.saveBinary s m.handle fname (if silent then 1 else 0)
    match check_return_value r.1 (E.getLastError r.2) with
    | .error e => (.err e, r.2, [.saveBinary m.handle fname (if silent then 1 else 0)])
    | .ok _ => (.ok (), r.2, [.saveBinary m.handle fname (if silent then 1 else 0)])

/-- `DMatrix::get_float_info(&self, field)`: `CString::new(field).unwrap()`,
`XGDMatrixGetFloatInfo`, then `slice::from_raw_parts(out_dptr, out_len)` —
the out-parameters are modelled directly as the list they denote. -/
def DMatrix.get_float_info {σ : Type} (E : Engine σ) (s : σ) (m : DMatrix)
    (field : String) : Outcome (List Nat) × σ × List EngineCall :=
  match cstring_new_str field with
  | none => (.panic nulErrorPanic, s, [])
  | some f =>
    let r := E.getFloatInfo s m.handle f
    match check_return_value r.1 (E.getLastError r.2.2) with
    | .error e => (.err e, r.2.2, [.getFloatInfo m.handle f])
    | .ok _ => (.ok r.2.1, r.2.2, [.getFloatInfo m.handle f])

/-- `DMatrix::set_float_info(&mut self, field, array)`: the method takes
`&mut self` but assigns no field, so the returned struct is `m` itself. -/
def DMatrix.set_float_info {σ : Type} (E : Engine σ) (s : σ) (m : DMatrix)
    (field : String) (array : List Nat) :
    Outcome Unit × DMatrix × σ × List EngineCall :=
  match cstring_new_str field with
  | none => (.panic nulErrorPanic, m, s, [])
  | some f =>
    let r := E.setFloatInfo s m.handle f array
    match check_return_value r.1 (E.getLastError r.2) with
    | .error e => (.err e, m, r.2, [.setFloatInfo m.handle f array])
    | .ok _ => (.ok (), m, r.2, [.setFloatInfo m.handle f array])

/-- `DMatrix::get_uint_info(&self, field)`: as `get_float_info`, through
`XGDMatrixGetUIntInfo`. -/
def DMatrix.get_uint_info {σ : Type} (E : Engine σ) (s : σ) (m : DMatrix)
    (field : String) : Outcome (List Nat) × σ × List EngineCall :=
  match cstring_new_str field with
  | none => (.panic nulErrorPanic, s, [])
  | some f =>
    let r := E.getUIntInfo s m.handle f
    match check_return_value r.1 (E.getLastError r.2.2) with
    | .error e => (.err e, r.2.2, [.getUIntInfo m.handle f])
    | .ok _ => (.ok r.2.1, r.2.2, [.getUIntInfo m.handle f])

/-- `DMatrix::set_uint_info(&mut self, field, array)`. -/
def DMatrix.set_uint_info {σ : Type} (E : Engine σ) (s : σ) (m : DMatrix)
    (field : String) (array : List Nat) :
    Outcome Unit × DMatrix × σ × List EngineCall :=
  match cstring_new_str field with
  | none => (.panic nulErrorPanic, m, s, [])
  | some f =>
    let r := E.setUIntInfo s m.handle f array
    match check_return_value r.1 (E.getLastError r.2) with
    | .error e => (.err e, m, r.2, [.setUIntInfo m.handle f array])
    | .ok _ => (.ok (), m, r.2, [.setUIntInfo m.handle f array])

/-- `DMatrix::get_root_index`. -/
def DMatrix.get_root_index {σ : Type} (E : Engine σ) (s : σ) (m : DMatrix) :
    Outcome (List Nat) × σ × List EngineCall :=
  DMatrix.get_uint_info E s m KEY_ROOT_INDEX

/-- `DMatrix::set_root_index`. -/
def DMatrix.set_root_index {σ : Type} (E : Engine σ) (s : σ) (m : DMatrix)
    (array : List Nat) : Outcome Unit × DMatrix × σ × List EngineCall :=
  DMatrix.set_uint_info E s m KEY_ROOT_INDEX array

/-- `DMatrix::get_labels`. -/
def DMatrix.get_labels {σ : Type} (E : Engine σ) (s : σ) (m : DMatrix) :
    Outcome (List Nat) × σ × List EngineCall :=
  DMatrix.get_float_info E s m KEY_LABEL

/-- `DMatrix::set_labels`. -/
def DMatrix.set_labels {σ : Type} (E : Engine σ) (s : σ) (m : DMatrix)
    (array : List Nat) : Outcome Unit × DMatrix × σ × List EngineCall :=
  DMatrix.set_float_info E s m KEY_LABEL array

/-- `DMatrix::get_weights`. -/
def DMatrix.get_weights {σ : Type} (E : Engine σ) (s : σ) (m : DMatrix) :
    Outcome (List Nat) × σ × List EngineCall :=
  DMatrix.get_float_info E s m KEY_WEIGHT

/-- `DMatrix::set_weights`. -/
def DMatrix.set_weights {σ : Type} (E : Engine σ) (s : σ) (m : DMatrix)
    (array : List Nat) : Outcome Unit × DMatrix × σ × List EngineCall :=
  DMatrix.set_float_info E s m KEY_WEIGHT array

/-- `DMatrix::get_base_margin`. -/
def DMatrix.get_base_margin {σ : Type} (E : Engine σ) (s : σ) (m : DMatrix) :
    Outcome (List Nat) × σ × List EngineCall :=
  DMatrix.get_float_info E s m KEY_BASE_MARGIN

/-- `DMatrix::set_base_margin`. -/
def DMatrix.set_base_margin {σ : Type} (E : Engine σ) (s : σ) (m : DMatrix)
    (array : List Nat) : Outcome Unit × DMatrix × σ × List EngineCall :=
  DMatrix.set_float_info E s m KEY_BASE_MARGIN array

/-- `DMatrix::set_group(&mut self, group)`: forwards to `XGDMatrixSetGroup`
with the group's length; assigns no field. -/
def DMatrix.set_group {σ : Type} (E : Engine σ) (s : σ) (m : DMatrix)
    (group : List Nat) : Outcome Unit × DMatrix × σ × List EngineCall :=
  let r := E.setGroup s m.handle group
  match check_return_value r.1 (E.getLastError r.2) with
  | .error e => (.err e, m, r.2, [.setGroup m.handle group])
  | .ok _ => (.ok (), m, r.2, [.setGroup m.handle group])

/-- `impl Drop for DMatrix`: `xgb_call!(XGDMatrixFree(self.handle)).unwrap()` —
one `XGDMatrixFree`, and a non-zero status panics through `.unwrap()`
instead of being returned as an `XGBError`.  Rust runs `drop` at most once
per value; this function is that single run. -/
def DMatrix.drop {σ : Type} (E : Engine σ) (s : σ) (m : DMatrix) :
    Outcome Unit × σ × List EngineCall :=
  let r := E.free s m.handle
  match check_return_value r.1 (E.getLastError r.2) with
  | .error e => (.panic (unwrapErrPanic e), r.2, [.free m.handle])
  | .ok _ => (.ok (), r.2, [.free m.handle])

/-! ## A concrete engine, modelled from the spec

The foreign engine is an external collaborator "specified only via the
interfaces the core uses" (spec sections 1 and 6); its code is not part of
this repository.  `specEngine` is one engine obeying that specification:
every call succeeds, auxiliary fields are per-matrix string-keyed sequences
that read back as zero-length when never set, dense creation records the
given shape, CSR/CSC creation derives the shape as section 4.1 describes
(pointer length minus one on one axis; the sentinel 0 means "infer from the
maximum index observed"). -/

/-- Modelled from the spec: the state of the foreign engine (spec
section 6) — allocated handles with their recorded shapes, the auxiliary
field stores, the group boundaries, and the last-error message. -/
structure SpecEngineState where
  nextHandle : Nat
  rows : Nat → Nat
  cols : Nat → Nat
  floatFields : Nat → String → List Nat
  uintFields : Nat → String → List Nat
  groups : Nat → List Nat
  lastError : String

/-- A fresh engine: no matrix allocated, every auxiliary field of every
handle unset (zero-length). -/
def SpecEngineState.init : SpecEngineState where
  nextHandle := 1
  rows := fun _ => 0
  cols := fun _ => 0
  floatFields := fun _ _ => []
  uintFields := fun _ _ => []
  groups := fun _ => []
  lastError := ""

/-- Modelled from the spec: the foreign engine's matrix API (spec
section 6), with every call succeeding. -/
def specEngine : Engine SpecEngineState where
  getLastError s := s.lastError
  createFromFile s _ _ :=
    (0, s.nextHandle, { s with nextHandle := s.nextHandle + 1 })
  createFromCSREx s _ indices _ nindptr _ numCol :=
    (0, s.nextHandle,
     { s with
       nextHandle := s.nextHandle + 1
       rows := fun h => if h = s.nextHandle then nindptr - 1 else s.rows h
       cols := fun h =>
         if h = s.nextHandle then
           (if numCol = 0 then indices.foldr Nat.max 0 + 1 else numCol)
         else s.cols h })
  createFromCSCEx s _ indices _ nindptr _ numRow :=
    (0, s.nextHandle,
     { s with
       nextHandle := s.nextHandle + 1
       cols := fun h => if h = s.nextHandle then nindptr - 1 else s.cols h
       rows := fun h =>
         if h = s.nextHandle then
           (if numRow = 0 then indices.foldr Nat.max 0 + 1 else numRow)
         else s.rows h })
  createFromMat s _ nrow ncol _ :=
    (0, s.nextHandle,
     { s with
       nextHandle := s.nextHandle + 1
       rows := fun h => if h = s.nextHandle then nrow else s.rows h
       cols := fun h => if h = s.nextHandle then ncol else s.cols h })
  numRow s h := (0, s.rows h, s)
  numCol s h := (0, s.cols h, s)
  saveBinary s _ _ _ := (0, s)
  getFloatInfo s h f := (0, s.floatFields h f, s)
  setFloatInfo s h f arr :=
    (0, { s with floatFields := fun h2 f2 =>
            if h2 = h ∧ f2 = f then arr else s.floatFields h2 f2 })
  getUIntInfo s h f := (0, s.uintFields h f, s)
  setUIntInfo s h f arr :=
    (0, { s with uintFields := fun h2 f2 =>
            if h2 = h ∧ f2 = f then arr else s.uintFields h2 f2 })
  setGroup s h g :=
    (0, { s with groups := fun h2 => if h2 = h then g else s.groups h2 })
  free s _ := (0, s)

/-- An engine behavior exhibiting a partial-construction failure: the
allocation call succeeds (handle 7), but the subsequent `XGDMatrixNumRow`
shape query reports a non-zero status. -/
def shapeFailEngine : Engine Unit where
  getLastError _ := "NumRow failed"
  createFromFile _ _ _ := (0, 7, ())
  createFromCSREx _ _ _ _ _ _ _ := (0, 7, ())
  createFromCSCEx _ _ _ _ _ _ _ := (0, 7, ())
  createFromMat _ _ _ _ _ := (0, 7, ())
  numRow _ _ := (1, 0, ())
  numCol _ _ := (0, 0, ())
  saveBinary _ _ _ _ := (0, ())
  getFloatInfo _ _ _ := (0, [], ())
  setFloatInfo _ _ _ _ := (0, ())
  getUIntInfo _ _ _ := (0, [], ())
  setUIntInfo _ _ _ _ := (0, ())
  setGroup _ _ _ := (0, ())
  free _ _ := (0, ())

/-! ## Helper lemmas -/

theorem check_return_value_ok {ret : Int} (h : ret = 0) (msg : String) :
    check_return_value ret msg = Except.ok () := by
  simp [check_return_value, h]

theorem check_return_value_error {ret : Int} (h : ¬ ret = 0) (msg : String) :
    check_return_value ret msg = Except.error ⟨msg⟩ := by
  simp [check_return_value, h]

/-- `DMatrix::new` never panics: each of its paths returns `ok` or `err`. -/
theorem new_not_panic {σ : Type} (E : Engine σ) (s : σ) (h : Nat) (msg : String) :
    (DMatrix.new E s h).1 ≠ Outcome.panic msg := by
  unfold DMatrix.new
  rcases hc : check_return_value (E.numRow s h).1
      (E.getLastError (E.numRow s h).2.2) with e | u
  · simp [hc]
  · rcases hc2 : check_return_value (E.numCol (E.numRow s h).2.2 h).1
        (E.getLastError (E.numCol (E.numRow s h).2.2 h).2.2) with e | u
    · simp [hc, hc2]
    · simp [hc, hc2]

/-- `DMatrix::new` never calls `XGDMatrixFree` on any of its paths. -/
theorem new_no_free {σ : Type} (E : Engine σ) (s : σ) (h : Nat) (hd : Nat) :
    EngineCall.free hd ∉ (DMatrix.new E s h).2.2 := by
  unfold DMatrix.new
  rcases hc : check_return_value (E.numRow s h).1
      (E.getLastError (E.numRow s h).2.2) with e | u
  · simp [hc]
  · rcases hc2 : check_return_value (E.numCol (E.numRow s h).2.2 h).1
        (E.getLastError (E.numCol (E.numRow s h).2.2 h).2.2) with e | u
    · simp [hc, hc2]
    · simp [hc, hc2]

/-- `set_float_info` returns the wrapper struct unchanged on every path
(the method takes `&mut self` but assigns no field). -/
theorem set_float_info_self {σ : Type} (E : Engine σ) (s : σ) (m : DMatrix)
    (field : String) (arr : List Nat) :
    (DMatrix.set_float_info E s m field arr).2.1 = m := by
  unfold DMatrix.set_float_info
  rcases hf : cstring_new_str field with _ | f
  · simp
  · by_cases h0 : (E.setFloatInfo s m.handle f arr).1 = 0 <;>
      simp [check_return_value, h0]

/-- `set_uint_info` returns the wrapper struct unchanged on every path. -/
theorem set_uint_info_self {σ : Type} (E : Engine σ) (s : σ) (m : DMatrix)
    (field : String) (arr : List Nat) :
    (DMatrix.set_uint_info E s m field arr).2.1 = m := by
  unfold DMatrix.set_uint_info
  rcases hf : cstring_new_str field with _ | f
  · simp
  · by_cases h0 : (E.setUIntInfo s m.handle f arr).1 = 0 <;>
      simp [check_return_value, h0]

/-- `set_group` returns the wrapper struct unchanged on every path. -/
theorem set_group_self {σ : Type} (E : Engine σ) (s : σ) (m : DMatrix)
    (grp : List Nat) :
    (DMatrix.set_group E s m grp).2.1 = m := by
  unfold DMatrix.set_group
  by_cases h0 : (E.setGroup s m.handle grp).1 = 0 <;>
    simp [check_return_value, h0]

/-- A float-field getter returns an `XGBError` exactly when the engine's
`GetFloatInfo` reports a non-zero status. -/
theorem get_float_info_err_iff {σ : Type} (E : Engine σ) (s : σ) (m : DMatrix)
    (field : String) (hf : cstring_new_str field = some field) :
    (∃ e, (DMatrix.get_float_info E s m field).1 = Outcome.err e)
      ↔ (E.getFloatInfo s m.handle field).1 ≠ 0 := by
  unfold DMatrix.get_float_info
  rw [hf]
  by_cases h0 : (E.getFloatInfo s m.handle field).1 = 0 <;>
    simp [check_return_value, h0]

/-- A uint-field getter returns an `XGBError` exactly when the engine's
`GetUIntInfo` reports a non-zero status. -/
theorem get_uint_info_err_iff {σ : Type} (E : Engine σ) (s : σ) (m : DMatrix)
    (field : String) (hf : cstring_new_str field = some field) :
    (∃ e, (DMatrix.get_uint_info E s m field).1 = Outcome.err e)
      ↔ (E.getUIntInfo s m.handle field).1 ≠ 0 := by
  unfold DMatrix.get_uint_info
  rw [hf]
  by_cases h0 : (E.getUIntInfo s m.handle field).1 = 0 <;>
    simp [check_return_value, h0]

/-- On the spec engine, setting a float field succeeds and a subsequent
get of the same field on the same matrix returns exactly the set values. -/
theorem float_info_round_trip (t : SpecEngineState) (m : DMatrix)
    (field : String) (arr : List Nat)
    (hf : cstring_new_str field = some field) :
    (DMatrix.set_float_info specEngine t m field arr).1 = Outcome.ok ()
    ∧ (DMatrix.get_float_info specEngine
        (DMatrix.set_float_info specEngine t m field arr).2.2.1 m field).1
      = Outcome.ok arr := by
  unfold DMatrix.set_float_info DMatrix.get_float_info
  rw [hf]
  simp [specEngine, check_return_value]

/-- On the spec engine, setting a uint field succeeds and a subsequent get
of the same field on the same matrix returns exactly the set values. -/
theorem uint_info_round_trip (t : SpecEngineState) (m : DMatrix)
    (field : String) (arr : List Nat)
    (hf : cstring_new_str field = some field) :
    (DMatrix.set_uint_info specEngine t m field arr).1 = Outcome.ok ()
    ∧ (DMatrix.get_uint_info specEngine
        (DMatrix.set_uint_info specEngine t m field arr).2.2.1 m field).1
      = Outcome.ok arr := by
  unfold DMatrix.set_uint_info DMatrix.get_uint_info
  rw [hf]
  simp [specEngine, check_return_value]

/-! ## The claims -/

/-- C1 (code_bug): the claim says that when the allocation call succeeds
and the subsequent shape query fails, the already-allocated handle is still
freed.  The code does not: with an engine whose `CreateFromFile` succeeds
(status 0, handle 7) and whose `NumRow` reports a non-zero status, `load`
returns an `XGBError` having called only `CreateFromFile` and `NumRow` —
`XGDMatrixFree(7)` is never invoked, so the handle leaks, contrary to the
spec's "never omitted while the handle is valid". -/
theorem load_leaks_handle_when_shape_query_fails :
    (DMatrix.load shapeFailEngine () [97]).2.2
        = [EngineCall.createFromFile [97] 1, EngineCall.numRow 7]
    ∧ (DMatrix.load shapeFailEngine () [97]).1 = Outcome.err ⟨"NumRow failed"⟩
    ∧ (shapeFailEngine.createFromFile () [97] 1).1 = 0
    ∧ EngineCall.free 7 ∉ (DMatrix.load shapeFailEngine () [97]).2.2 :=
  ⟨by decide, by rfl, by rfl, by decide⟩

/-- C2: `from_csr` / `from_csc` reject mismatched index/value lengths by
the `assert_eq!` panic (a programmer-error precondition failure, not an
`XGBError`), and they do so before any engine call (the call trace is empty
exactly in the rejected case); with equal lengths no such rejection occurs
(the outcome is never the assertion panic, and an engine call is made). -/
theorem from_csr_csc_length_assertion {σ : Type} (E : Engine σ) (s : σ)
    (indptr indices data : List Nat) (nc nr : Option Nat) :
    ((DMatrix.from_csr E s indptr indices data nc).1 = Outcome.panic assertEqPanic
        ↔ indices.length ≠ data.length)
    ∧ ((DMatrix.from_csr E s indptr indices data nc).2.2 = []
        ↔ indices.length ≠ data.length)
    ∧ ((DMatrix.from_csc E s indptr indices data nr).1 = Outcome.panic assertEqPanic
        ↔ indices.length ≠ data.length)
    ∧ ((DMatrix.from_csc E s indptr indices data nr).2.2 = []
        ↔ indices.length ≠ data.length) := by
  by_cases hl : indices.length = data.length
  · by_cases h0 : (E.createFromCSREx s indptr indices data
        indptr.length data.length (nc.getD 0)).1 = 0
    · by_cases h1 : (E.createFromCSCEx s indptr indices data
          indptr.length data.length (nr.getD 0)).1 = 0
      · simp [DMatrix.from_csr, DMatrix.from_csc, hl, check_return_value,
              h0, h1, new_not_panic]
      · simp [DMatrix.from_csr, DMatrix.from_csc, hl, check_return_value,
              h0, h1, new_not_panic]
    · by_cases h1 : (E.createFromCSCEx s indptr indices data
          indptr.length data.length (nr.getD 0)).1 = 0
      · simp [DMatrix.from_csr, DMatrix.from_csc, hl, check_return_value,
              h0, h1, new_not_panic]
      · simp [DMatrix.from_csr, DMatrix.from_csc, hl, check_return_value,
              h0, h1, new_not_panic]
  · simp [DMatrix.from_csr, DMatrix.from_csc, hl]

/-- C3: the release step (`impl Drop for DMatrix`) invokes the engine's
`XGDMatrixFree` exactly once for the owned handle (its call trace is exactly
one `free`), a non-zero status from `Free` escalates as a panic through
`.unwrap()` — never as a returned `XGBError` — and a zero status returns
normally. -/
theorem drop_frees_exactly_once_and_escalates {σ : Type} (E : Engine σ)
    (s : σ) (m : DMatrix) :
    (DMatrix.drop E s m).2.2 = [EngineCall.free m.handle]
    ∧ (DMatrix.drop E s m).1
        = (if (E.free s m.handle).1 = 0 then Outcome.ok ()
           else Outcome.panic
             (unwrapErrPanic ⟨E.getLastError (E.free s m.handle).2⟩))
    ∧ (∀ e, (DMatrix.drop E s m).1 ≠ Outcome.err e) := by
  by_cases h0 : (E.free s m.handle).1 = 0
  · simp [DMatrix.drop, check_return_value, h0]
  · simp [DMatrix.drop, check_return_value, h0]

/-- C4: a successfully constructed `DMatrix` caches exactly the counts the
engine reported at construction time (`num_rows` from `NumRow`, `num_cols`
from `NumCol` on the new handle), the accessors are the pure projections of
those cached fields (they take no engine argument at all, so they cannot
re-query), and every post-construction mutating operation — the generic and
named auxiliary-field setters and `set_group` — returns the wrapper struct
unchanged, cached shape included.  (`save` and the getters take `&self` and
cannot mutate the struct.) -/
theorem shape_cached_at_construction_and_stable {σ : Type} (E : Engine σ)
    (s : σ) (h : Nat) (m : DMatrix) (field : String)
    (arrF arrU grp : List Nat)
    (hm : (DMatrix.new E s h).1 = Outcome.ok m) :
    m.handle = h
    ∧ m.num_rows = (E.numRow s h).2.1
    ∧ m.num_cols = (E.numCol (E.numRow s h).2.2 h).2.1
    ∧ (DMatrix.set_float_info E s m field arrF).2.1 = m
    ∧ (DMatrix.set_uint_info E s m field arrU).2.1 = m
    ∧ (DMatrix.set_root_index E s m arrU).2.1 = m
    ∧ (DMatrix.set_labels E s m arrF).2.1 = m
    ∧ (DMatrix.set_weights E s m arrF).2.1 = m
    ∧ (DMatrix.set_base_margin E s m arrF).2.1 = m
    ∧ (DMatrix.set_group E s m grp).2.1 = m := by
  by_cases h0 : (E.numRow s h).1 = 0
  · by_cases h1 : (E.numCol (E.numRow s h).2.2 h).1 = 0
    · simp [DMatrix.new, check_return_value, h0, h1] at hm
      subst hm
      exact ⟨rfl, rfl, rfl,
        set_float_info_self E s _ field arrF,
        set_uint_info_self E s _ field arrU,
        set_uint_info_self E s _ KEY_ROOT_INDEX arrU,
        set_float_info_self E s _ KEY_LABEL arrF,
        set_float_info_self E s _ KEY_WEIGHT arrF,
        set_float_info_self E s _ KEY_BASE_MARGIN arrF,
        set_group_self E s _ grp⟩
    · simp [DMatrix.new, check_return_value, h0, h1] at hm
  · simp [DMatrix.new, check_return_value, h0] at hm

/-- Witness for C4: a concrete construction on the spec engine, whose shape
query on handle 5 of a fresh engine reports 0 rows and 0 columns. -/
theorem shape_cached_at_construction_witness :
    (⟨5, 0, 0⟩ : DMatrix).num_rows
      = (specEngine.numRow SpecEngineState.init 5).2.1 :=
  (shape_cached_at_construction_and_stable specEngine SpecEngineState.init 5
      ⟨5, 0, 0⟩ KEY_LABEL [] [] [] (by rfl)).2.1

/-- C5: for each supported key, reading the field on a fresh engine (where
no field was ever set) yields success with the empty sequence, never an
error; and, over an arbitrary engine, each named getter fails with an
`XGBError` exactly when the engine reports a non-zero status for that
key's query. -/
theorem get_unset_field_empty_and_err_iff_engine {σ : Type} (E : Engine σ)
    (s : σ) (m : DMatrix) :
    (DMatrix.get_root_index specEngine SpecEngineState.init m).1 = Outcome.ok []
    ∧ (DMatrix.get_labels specEngine SpecEngineState.init m).1 = Outcome.ok []
    ∧ (DMatrix.get_weights specEngine SpecEngineState.init m).1 = Outcome.ok []
    ∧ (DMatrix.get_base_margin specEngine SpecEngineState.init m).1 = Outcome.ok []
    ∧ ((∃ e, (DMatrix.get_root_index E s m).1 = Outcome.err e)
        ↔ (E.getUIntInfo s m.handle KEY_ROOT_INDEX).1 ≠ 0)
    ∧ ((∃ e, (DMatrix.get_labels E s m).1 = Outcome.err e)
        ↔ (E.getFloatInfo s m.handle KEY_LABEL).1 ≠ 0)
    ∧ ((∃ e, (DMatrix.get_weights E s m).1 = Outcome.err e)
        ↔ (E.getFloatInfo s m.handle KEY_WEIGHT).1 ≠ 0)
    ∧ ((∃ e, (DMatrix.get_base_margin E s m).1 = Outcome.err e)
        ↔ (E.getFloatInfo s m.handle KEY_BASE_MARGIN).1 ≠ 0) :=
  ⟨rfl, rfl, rfl, rfl,
   get_uint_info_err_iff E s m KEY_ROOT_INDEX rfl,
   get_float_info_err_iff E s m KEY_LABEL rfl,
   get_float_info_err_iff E s m KEY_WEIGHT rfl,
   get_float_info_err_iff E s m KEY_BASE_MARGIN rfl⟩

/-- C6: the four named accessor pairs are exactly the generic string-keyed
accessors at their fixed keys (`root_index` through the uint pair; `label`,
`weight`, `base_margin` through the float pair), and on the spec engine each
named set followed by the matching named get on the same matrix round-trips:
the setter succeeds and the getter returns exactly the set sequence. -/
theorem aux_field_round_trip_and_facades {σ : Type} (E : Engine σ) (s : σ)
    (t : SpecEngineState) (m : DMatrix) (arrU arrF : List Nat) :
    DMatrix.get_root_index E s m = DMatrix.get_uint_info E s m KEY_ROOT_INDEX
    ∧ DMatrix.set_root_index E s m arrU
        = DMatrix.set_uint_info E s m KEY_ROOT_INDEX arrU
    ∧ DMatrix.get_labels E s m = DMatrix.get_float_info E s m KEY_LABEL
    ∧ DMatrix.set_labels E s m arrF
        = DMatrix.set_float_info E s m KEY_LABEL arrF
    ∧ DMatrix.get_weights E s m = DMatrix.get_float_info E s m KEY_WEIGHT
    ∧ DMatrix.set_weights E s m arrF
        = DMatrix.set_float_info E s m KEY_WEIGHT arrF
    ∧ DMatrix.get_base_margin E s m
        = DMatrix.get_float_info E s m KEY_BASE_MARGIN
    ∧ DMatrix.set_base_margin E s m arrF
        = DMatrix.set_float_info E s m KEY_BASE_MARGIN arrF
    ∧ (DMatrix.set_root_index specEngine t m arrU).1 = Outcome.ok ()
    ∧ (DMatrix.get_root_index specEngine
        (DMatrix.set_root_index specEngine t m arrU).2.2.1 m).1 = Outcome.ok arrU
    ∧ (DMatrix.set_labels specEngine t m arrF).1 = Outcome.ok ()
    ∧ (DMatrix.get_labels specEngine
        (DMatrix.set_labels specEngine t m arrF).2.2.1 m).1 = Outcome.ok arrF
    ∧ (DMatrix.set_weights specEngine t m arrF).1 = Outcome.ok ()
    ∧ (DMatrix.get_weights specEngine
        (DMatrix.set_weights specEngine t m arrF).2.2.1 m).1 = Outcome.ok arrF
    ∧ (DMatrix.set_base_margin specEngine t m arrF).1 = Outcome.ok ()
    ∧ (DMatrix.get_base_margin specEngine
        (DMatrix.set_base_margin specEngine t m arrF).2.2.1 m).1
      = Outcome.ok arrF :=
  ⟨rfl, rfl, rfl, rfl, rfl, rfl, rfl, rfl,
   (uint_info_round_trip t m KEY_ROOT_INDEX arrU rfl).1,
   (uint_info_round_trip t m KEY_ROOT_INDEX arrU rfl).2,
   (float_info_round_trip t m KEY_LABEL arrF rfl).1,
   (float_info_round_trip t m KEY_LABEL arrF rfl).2,
   (float_info_round_trip t m KEY_WEIGHT arrF rfl).1,
   (float_info_round_trip t m KEY_WEIGHT arrF rfl).2,
   (float_info_round_trip t m KEY_BASE_MARGIN arrF rfl).1,
   (float_info_round_trip t m KEY_BASE_MARGIN arrF rfl).2⟩

/-- With equal index/value lengths, `from_csr` calls the engine's CSR
creation first, passing `num_cols.unwrap_or(0)` on the column-count slot. -/
theorem from_csr_first_call {σ : Type} (E : Engine σ) (s : σ)
    (indptr indices data : List Nat) (nc : Option Nat)
    (hlen : indices.length = data.length) :
    (DMatrix.from_csr E s indptr indices data nc).2.2.head?
      = some (EngineCall.createFromCSREx indptr indices data
          indptr.length data.length (nc.getD 0)) := by
  by_cases h0 : (E.createFromCSREx s indptr indices data
      indptr.length data.length (nc.getD 0)).1 = 0 <;>
    simp [DMatrix.from_csr, hlen, check_return_value, h0]

/-- With equal index/value lengths, `from_csc` calls the engine's CSC
creation first, passing `num_rows.unwrap_or(0)` on the row-count slot. -/
theorem from_csc_first_call {σ : Type} (E : Engine σ) (s : σ)
    (indptr indices data : List Nat) (nr : Option Nat)
    (hlen : indices.length = data.length) :
    (DMatrix.from_csc E s indptr indices data nr).2.2.head?
      = some (EngineCall.createFromCSCEx indptr indices data
          indptr.length data.length (nr.getD 0)) := by
  by_cases h0 : (E.createFromCSCEx s indptr indices data
      indptr.length data.length (nr.getD 0)).1 = 0 <;>
    simp [DMatrix.from_csc, hlen, check_return_value, h0]

/-- `DMatrix::new` always returns `ok` or `err`. -/
theorem new_err_or_ok {σ : Type} (E : Engine σ) (s : σ) (h : Nat) :
    (∃ e, (DMatrix.new E s h).1 = Outcome.err e)
      ∨ (∃ m, (DMatrix.new E s h).1 = Outcome.ok m) := by
  by_cases h0 : (E.numRow s h).1 = 0
  · by_cases h1 : (E.numCol (E.numRow s h).2.2 h).1 = 0
    · exact Or.inr ⟨⟨h, (E.numRow s h).2.1, (E.numCol (E.numRow s h).2.2 h).2.1⟩,
        by simp [DMatrix.new, check_return_value, h0, h1]⟩
    · exact Or.inl ⟨⟨E.getLastError (E.numCol (E.numRow s h).2.2 h).2.2⟩,
        by simp [DMatrix.new, check_return_value, h0, h1]⟩
  · exact Or.inl ⟨⟨E.getLastError (E.numRow s h).2.2⟩,
      by simp [DMatrix.new, check_return_value, h0]⟩

/-- C8: in `from_csr` (resp. `from_csc`) an omitted optional column
(resp. row) count is translated to the engine's sentinel 0 at the call
site, and an explicit `Some n` is passed through unchanged: the creation
call the engine receives carries 0 for `None` and `n` for `Some n`.  (The
public signatures themselves take `Option`, so the sentinel never appears
at the caller boundary.) -/
theorem optional_count_sentinel_translation {σ : Type} (E : Engine σ) (s : σ)
    (indptr indices data : List Nat) (n : Nat)
    (hlen : indices.length = data.length) :
    (DMatrix.from_csr E s indptr indices data none).2.2.head?
      = some (EngineCall.createFromCSREx indptr indices data
          indptr.length data.length 0)
    ∧ (DMatrix.from_csr E s indptr indices data (some n)).2.2.head?
      = some (EngineCall.createFromCSREx indptr indices data
          indptr.length data.length n)
    ∧ (DMatrix.from_csc E s indptr indices data none).2.2.head?
      = some (EngineCall.createFromCSCEx indptr indices data
          indptr.length data.length 0)
    ∧ (DMatrix.from_csc E s indptr indices data (some n)).2.2.head?
      = some (EngineCall.createFromCSCEx indptr indices data
          indptr.length data.length n) :=
  ⟨from_csr_first_call E s indptr indices data none hlen,
   from_csr_first_call E s indptr indices data (some n) hlen,
   from_csc_first_call E s indptr indices data none hlen,
   from_csc_first_call E s indptr indices data (some n) hlen⟩

/-- Witness for C8 at a concrete CSR input and the spec engine. -/
theorem optional_count_sentinel_witness :
    (DMatrix.from_csr specEngine SpecEngineState.init
        [0, 2] [0, 1] [10, 20] none).2.2.head?
      = some (EngineCall.createFromCSREx [0, 2] [0, 1] [10, 20] 2 2 0) :=
  (optional_count_sentinel_translation specEngine SpecEngineState.init
      [0, 2] [0, 1] [10, 20] 10 rfl).1

/-- C9: `from_dense` checks no length precondition of its own — for every
buffer and every claimed shape, also mismatched ones, its outcome is a
normal return or an `XGBError`, never a panic — and on the spec engine a
dense construction succeeds with the cached counts equal to the given `r`
and `c`, for every buffer and shape: in particular for every `r` and `c`
with `r * c = data.length`, and also for the spec's oversized reshapes
(section 8 names the 6-element buffer as 10 by 20). -/
theorem from_dense_no_length_precondition_and_shape {σ : Type} (E : Engine σ)
    (s : σ) (data : List Nat) (r c missing : Nat) (t : SpecEngineState) :
    ((∃ e, (DMatrix.from_dense E s data r c missing).1 = Outcome.err e)
      ∨ (∃ m, (DMatrix.from_dense E s data r c missing).1 = Outcome.ok m))
    ∧ (∃ m, (DMatrix.from_dense specEngine t data r c missing).1 = Outcome.ok m
        ∧ m.num_rows = r ∧ m.num_cols = c) := by
  constructor
  · by_cases h0 : (E.createFromMat s data r c missing).1 = 0
    · have hno := new_err_or_ok E (E.createFromMat s data r c missing).2.2
        (E.createFromMat s data r c missing).2.1
      rcases hno with ⟨e, he⟩ | ⟨m, hmk⟩
      · exact Or.inl ⟨e, by simp [DMatrix.from_dense, check_return_value, h0, he]⟩
      · exact Or.inr ⟨m, by simp [DMatrix.from_dense, check_return_value, h0, hmk]⟩
    · exact Or.inl ⟨⟨E.getLastError (E.createFromMat s data r c missing).2.2⟩,
        by simp [DMatrix.from_dense, check_return_value, h0]⟩
  · refine ⟨⟨t.nextHandle, r, c⟩, ?_, rfl, rfl⟩
    simp [DMatrix.from_dense, DMatrix.new, specEngine, check_return_value]

/-- Witness for C9 at a concrete input: the 6-element buffer claimed as an
oversized 10 by 20 matrix (no length check fires) still constructs with the
given counts cached. -/
theorem from_dense_shape_witness :
    ∃ m, (DMatrix.from_dense specEngine SpecEngineState.init
        [1, 2, 3, 4, 5, 6] 10 20 0).1 = Outcome.ok m
      ∧ m.num_rows = 10 ∧ m.num_cols = 20 :=
  (from_dense_no_length_precondition_and_shape specEngine SpecEngineState.init
      [1, 2, 3, 4, 5, 6] 10 20 0 SpecEngineState.init).2

/-- C10: `load` and `save` panic through `unwrap` on the `CString`
conversion — before any engine call (empty trace) — exactly when the path
has an interior NUL byte; for NUL-free paths the conversion succeeds and the
engine call is reached (the trace starts with `CreateFromFile`, resp. is
exactly the `SaveBinary` call). -/
theorem nul_path_panics_before_engine_call {σ : Type} (E : Engine σ) (s : σ)
    (m : DMatrix) (path : Bytes) (silent : Bool) :
    (((DMatrix.load E s path).1 = Outcome.panic nulErrorPanic
        ∧ (DMatrix.load E s path).2.2 = []) ↔ 0 ∈ path)
    ∧ (((DMatrix.save E s m path silent).1 = Outcome.panic nulErrorPanic
        ∧ (DMatrix.save E s m path silent).2.2 = []) ↔ 0 ∈ path)
    ∧ ((DMatrix.load E s path).2.2.head?
        = some (EngineCall.createFromFile path 1) ↔ 0 ∉ path)
    ∧ ((DMatrix.save E s m path silent).2.2
        = [EngineCall.saveBinary m.handle path (if silent then 1 else 0)]
      ↔ 0 ∉ path) := by
  by_cases hp : (0 : Nat) ∈ path
  · simp [DMatrix.load, DMatrix.save, cstring_new, hp]
  · by_cases h0 : (E.createFromFile s path 1).1 = 0
    · by_cases h1 : (E.saveBinary s m.handle path (if silent then 1 else 0)).1 = 0
      · simp [DMatrix.load, DMatrix.save, cstring_new, hp, check_return_value, h0, h1]
      · simp [DMatrix.load, DMatrix.save, cstring_new, hp, check_return_value, h0, h1]
    · by_cases h1 : (E.saveBinary s m.handle path (if silent then 1 else 0)).1 = 0
      · simp [DMatrix.load, DMatrix.save, cstring_new, hp, check_return_value, h0, h1]
      · simp [DMatrix.load, DMatrix.save, cstring_new, hp, check_return_value, h0, h1]

end Xgb
